import Mathlib

set_option maxRecDepth 4000
set_option maxHeartbeats 1000000

/-!
Verification of the `swapd` daemon lifecycle (`cmd/swapd/main.go`) and of the
`xmrtaker` package of the atomic-swap repository, as a shallow embedding.

External collaborators (network host, database, Ethereum client, Monero
wallet RPC, contract bindings, RPC server) are modelled by an oracle
(`World`) that records, for each external call the daemon makes, whether the
call succeeds and what it returns.  The daemon functions are translated from
the Go source control-flow-faithfully and additionally return the list of
component operations they performed, in order, so that initialization and
shutdown ordering can be stated and proved.
-/

deriving instance DecidableEq for Except

namespace AtomicSwap

/-- Component operations performed by the daemon, in the order the Go code
performs them.  One constructor per externally visible call site of
`daemon.make`, `newBackend`, `getProtocolInstances` and `daemon.stop`. -/
inductive Ev where
  | getEnvironment
  | makeDataDir
  | dialEthClient
  | fetchChainID
  | newHost
  | openDatabase
  | newSwapManager
  | getEthKey
  | getOrDeployFactory
  | newWalletClient
  | closeWalletClient
  | newBackendCall
  | newXMRTaker
  | newXMRMaker
  | setHandler
  | startHost
  | newRPCServer
  | startRPC
  | closeBackend
  | closeDatabase
  | stopHost
  | stopRPC
  deriving DecidableEq, Repr

/-- Index of the first occurrence of `a` in a trace (the length if absent). -/
def idxOf (a : Ev) : List Ev → Nat
  | [] => 0
  | b :: l => if a = b then 0 else idxOf a l + 1

/-- `precedesIdx tr a b`: both events occur in `tr`, and the first occurrence
of `a` is strictly before the first occurrence of `b`. -/
def precedesIdx (tr : List Ev) (a b : Ev) : Prop :=
  a ∈ tr ∧ b ∈ tr ∧ idxOf a tr < idxOf b tr

instance (tr : List Ev) (a b : Ev) : Decidable (precedesIdx tr a b) := by
  unfold precedesIdx; exact inferInstance

/-- The execution environment, from `common.Environment` (parsed by
`cliutil.GetEnvironment` out of the `--env` flag, one of mainnet, stagenet
or dev per the flag usage string in the source). -/
inductive Environment where
  | mainnet
  | stagenet
  | development
  deriving DecidableEq, Repr

/-- The slice of `common.Config` that the daemon reads or writes.  The
contract address is modelled as the 160-bit value of the address
(`0` is the zero address, `ethcommon.Address{}`). -/
structure Config where
  dataDir : String
  bootnodes : List String
  contractAddress : Nat
  moneroDaemonHost : String
  moneroDaemonPort : Nat
  deriving DecidableEq, Repr

/- Flag-name constants, from the `const` block of `cmd/swapd/main.go`. -/

def flagRPCPort : String := "rpc-port"

def flagDataDir : String := "data-dir"

def flagLibp2pKey : String := "libp2p-key"

def flagLibp2pPort : String := "libp2p-port"

def flagEnv : String := "env"

def flagMoneroDaemonHost : String := "monerod-host"

def flagMoneroWalletPath : String := "wallet-file"

def flagEthereumPrivKey : String := "ethereum-privkey"

def flagContractAddress : String := "contract-address"

def flagUseExternalSigner : String := "external-signer"

def flagDevXMRTaker : String := "dev-xmrtaker"

def flagDevXMRMaker : String := "dev-xmrmaker"

def flagDeploy : String := "deploy"

def flagTransferBack : String := "transfer-back"

def flagLogLevel : String := "log-level"

/-- Default dev data directories (`os.MkdirTemp` results in the source;
modelled as fixed path strings since only their identity matters). -/
def defaultXMRTakerDataDir : String := "/tmp/xmrtaker-0"

def defaultXMRMakerDataDir : String := "/tmp/xmrmaker-0"

/-- The command-line flag values given to the daemon.  For each string flag
that the Go code queries with `c.IsSet`, a `...Set` field records whether the
user passed the flag and the value field records `c.String`/`c.Uint`'s
answer (the Go value is the flag default when unset). -/
structure Flags where
  env : String
  dataDirSet : Bool
  dataDir : String
  libp2pKeySet : Bool
  libp2pKey : String
  libp2pPortSet : Bool
  libp2pPort : Nat
  bootnodes : List String
  ethereumEndpoint : String
  devXMRMaker : Bool
  devXMRTaker : Bool
  deploy : Bool
  contractAddressSet : Bool
  contractAddress : String
  useExternalSigner : Bool
  ethereumPrivKeySet : Bool
  ethereumPrivKey : String
  gasPrice : Nat
  gasLimit : Nat
  moneroDaemonHostSet : Bool
  moneroDaemonHost : String
  moneroDaemonPortSet : Bool
  moneroDaemonPort : Nat
  moneroWalletPathSet : Bool
  moneroWalletPath : String
  moneroWalletPassword : String
  moneroWalletPort : Nat
  rpcPortSet : Bool
  rpcPort : Nat
  transferBack : Bool
  logLevel : String
  deriving DecidableEq, Repr

/-- Oracle for the outcomes of the daemon's calls into its external
collaborators.  Each field answers one call site; `chainID = none` means the
`ec.ChainID` call returned an error, `some c` that it returned `c`. -/
structure World where
  getEnvironmentRes : Option (Environment × Config)
  makeDirOk : Bool
  dialOk : Bool
  chainID : Option Int
  newHostOk : Bool
  newDatabaseOk : Bool
  getEthKeyOk : Bool
  getOrDeployOk : Bool
  deployedAddress : Nat
  walletClientOk : Bool
  newBackendOk : Bool
  xmrtakerOk : Bool
  xmrmakerOk : Bool
  startHostOk : Bool
  newServerOk : Bool
  startRPCClosed : Bool
  startRPCOtherErr : Bool
  stopDatabaseOk : Bool
  stopHostOk : Bool
  stopRPCOk : Bool
  deriving DecidableEq, Repr

/-- Errors of `newBackend`. -/
inductive BErr where
  | flagsMutuallyExclusive (f1 f2 : String)
  | flagValueEmpty (f : String)
  | getEthKeyErr
  | invalidContractAddress (s : String)
  | contractSourceRequired
  | getOrDeployErr
  | walletClientErr
  | newBackendFailed
  deriving DecidableEq, Repr

/-- Errors of `daemon.make`. -/
inductive MakeErr where
  | getEnvironmentErr
  | flagsMutuallyExclusive (f1 f2 : String)
  | flagValueEmpty (f : String)
  | makeDirErr
  | dialErr
  | chainIDErr
  | newHostErr
  | newDatabaseErr
  | backendErr (e : BErr)
  | xmrtakerErr
  | xmrmakerErr
  | startHostErr
  | newServerErr
  | startRPCErr
  deriving DecidableEq, Repr

/-- Errors of `daemon.stop`. -/
inductive StopErr where
  | databaseClose
  | hostStop
  | rpcStop
  deriving DecidableEq, Repr

/-- The protocol-instance roles returned by `getProtocolInstances`
(first the XMRTaker handler `a`, then the XMRMaker handler `b`). -/
inductive Role where
  | taker
  | maker
  deriving DecidableEq, Repr

/-- From the source: flattens boot nodes passed with multiple flags and
comma-separated within a flag, trimming whitespace. -/
def expandBootnodes (nodesCLI : List String) : List String :=
  nodesCLI.flatMap (fun n => (n.splitOn ",").map (fun ns => ns.trim))

/- Hex-address handling, following go-ethereum's
`common.IsHexAddress` / `common.HexToAddress` as used by `newBackend`. -/

def isHexCharB (c : Char) : Bool :=
  (('0' ≤ c) && (c ≤ '9')) || (('a' ≤ c) && (c ≤ 'f')) || (('A' ≤ c) && (c ≤ 'F'))

/-- The characters of `s` after stripping an optional `0x`/`0X` prefix. -/
def stripHexPrefixChars (s : String) : List Char :=
  match s.data with
  | '0' :: 'x' :: rest => rest
  | '0' :: 'X' :: rest => rest
  | l => l

/-- go-ethereum `common.IsHexAddress`: after stripping an optional `0x`
prefix, the string must be exactly 40 hex characters. -/
def isHexAddress (s : String) : Bool :=
  (stripHexPrefixChars s).length == 40 && (stripHexPrefixChars s).all isHexCharB

def hexDigitVal (c : Char) : Nat :=
  if (('0' ≤ c) && (c ≤ '9')) then c.toNat - '0'.toNat
  else if (('a' ≤ c) && (c ≤ 'f')) then c.toNat - 'a'.toNat + 10
  else if (('A' ≤ c) && (c ≤ 'F')) then c.toNat - 'A'.toNat + 10
  else 0

/-- go-ethereum `common.HexToAddress` restricted to strings that pass
`isHexAddress` (the only way `newBackend` uses it): the 40 hex digits read
as a 160-bit big-endian value. -/
def hexToAddress (s : String) : Nat :=
  (stripHexPrefixChars s).foldl (fun a c => a * 16 + hexDigitVal c) 0

/-- The swap-contract binding produced by backend construction: the contract
address in use, and whether a fresh SwapFactory was deployed for it. -/
structure Backend where
  contractAddress : Nat
  deployedNew : Bool
  deriving DecidableEq, Repr

/-- Modelled from the spec: `getOrDeploySwapFactory` is not among the given
sources; per daemon startup step 4 of the spec it deploys a new SwapFactory
when the configured address is the zero address (which is what `newBackend`
arranges when `--deploy` is passed) and otherwise validates that the
provided address has the expected bytecode.  The chain interaction is the
oracle: `getOrDeployOk` decides success and `deployedAddress` is the address
a fresh deployment gets. -/
def getOrDeploySwapFactory (w : World) (addr : Nat) : Except BErr Backend :=
  if !w.getOrDeployOk then .error .getOrDeployErr
  else if addr == 0 then .ok ⟨w.deployedAddress, true⟩
  else .ok ⟨addr, false⟩

/-- From the source: `newBackend`.  Resolves the Ethereum signing key, then
the swap-contract source (deploy a fresh SwapFactory xor use a configured
address), then the Monero wallet client, then constructs the backend,
closing the wallet client again if backend construction fails.  Returns the
operations performed and the result. -/
def newBackend (f : Flags) (cfg : Config) (w : World) :
    List Ev × Except BErr Backend :=
  if f.useExternalSigner && f.ethereumPrivKeySet then
    ([], .error (.flagsMutuallyExclusive flagUseExternalSigner flagEthereumPrivKey))
  else if !f.useExternalSigner && f.ethereumPrivKeySet && f.ethereumPrivKey == "" then
    ([], .error (.flagValueEmpty flagEthereumPrivKey))
  else if !f.useExternalSigner && !w.getEthKeyOk then
    ([.getEthKey], .error .getEthKeyErr)
  else
    let t0 : List Ev := if f.useExternalSigner then [] else [.getEthKey]
    let addrRes : Except BErr Nat :=
      if f.deploy then
        if f.contractAddressSet then
          .error (.flagsMutuallyExclusive flagDeploy flagContractAddress)
        else
          .ok 0
      else
        if f.contractAddress == "" then
          if cfg.contractAddress == 0 then .error .contractSourceRequired
          else .ok cfg.contractAddress
        else if !isHexAddress f.contractAddress then
          .error (.invalidContractAddress f.contractAddress)
        else if hexToAddress f.contractAddress == 0 then
          .error .contractSourceRequired
        else
          .ok (hexToAddress f.contractAddress)
    match addrRes with
    | .error e => (t0, .error e)
    | .ok addr =>
      match getOrDeploySwapFactory w addr with
      | .error e => (t0 ++ [.getOrDeployFactory], .error e)
      | .ok fac =>
        if f.moneroDaemonHostSet && f.moneroDaemonHost == "" then
          (t0 ++ [.getOrDeployFactory], .error (.flagValueEmpty flagMoneroDaemonHost))
        else if f.moneroWalletPathSet && f.moneroWalletPath == "" then
          (t0 ++ [.getOrDeployFactory], .error (.flagValueEmpty flagMoneroWalletPath))
        else if !w.walletClientOk then
          (t0 ++ [.getOrDeployFactory, .newWalletClient], .error .walletClientErr)
        else if !w.newBackendOk then
          (t0 ++ [.getOrDeployFactory, .newWalletClient, .newBackendCall, .closeWalletClient],
            .error .newBackendFailed)
        else
          (t0 ++ [.getOrDeployFactory, .newWalletClient, .newBackendCall], .ok fac)

/-- From the source: `getProtocolInstances` re-resolves the Monero wallet
file path (rejecting an explicitly empty flag value) and then constructs
the XMRTaker and the XMRMaker protocol instances, in that order. -/
def getProtocolInstances (f : Flags) (w : World) :
    List Ev × Except MakeErr (Role × Role) :=
  if f.moneroWalletPathSet && f.moneroWalletPath == "" then
    ([], .error (.flagValueEmpty flagMoneroWalletPath))
  else if !w.xmrtakerOk then
    ([.newXMRTaker], .error .xmrtakerErr)
  else if !w.xmrmakerOk then
    ([.newXMRTaker, .newXMRMaker], .error .xmrmakerErr)
  else
    ([.newXMRTaker, .newXMRMaker], .ok (.taker, .maker))

/-- Everything `daemon.make` produces that the claims talk about: the trace
of component operations, the returned error, which of the daemon struct's
component fields got assigned (`d.host`, `d.database`, `d.rpcServer`),
which protocol instance was registered as the network's inbound handler,
and the chain id written into the network config. -/
structure MakeResult where
  trace : List Ev
  err : Option MakeErr
  hostSet : Bool
  databaseSet : Bool
  rpcServerSet : Bool
  registeredHandler : Option Role
  netChainID : Option Int
  deriving DecidableEq, Repr

/-- From the source: the data-directory override logic of `daemon.make`.
An explicitly set `--data-dir` wins; otherwise, in the dev environment, a
dev-role default is substituted. -/
def resolveDataDir (f : Flags) (env : Environment) (cfg0 : Config) : Config :=
  if f.dataDirSet then { cfg0 with dataDir := f.dataDir }
  else if env = .development then
    if f.devXMRTaker then { cfg0 with dataDir := defaultXMRTakerDataDir }
    else if f.devXMRMaker then { cfg0 with dataDir := defaultXMRMakerDataDir }
    else cfg0
  else cfg0

/-- From the source: the bootnode override of `daemon.make` (only when at
least one `--bootnodes` flag was passed). -/
def resolveBootnodes (f : Flags) (cfg : Config) : Config :=
  if f.bootnodes.isEmpty then cfg
  else { cfg with bootnodes := expandBootnodes f.bootnodes }

/-- The configuration `daemon.make` has built by the time it constructs the
backend. -/
def makeCfg (f : Flags) (env : Environment) (cfg0 : Config) : Config :=
  resolveBootnodes f (resolveDataDir f env cfg0)

/-- From the source: `daemon.make`.  Parses the environment, rejects the
two dev flags together, resolves the data directory and libp2p settings,
dials the Ethereum client and fetches the chain id, creates the network
host, opens the database, creates the swap manager and the backend (with a
deferred `backend.Close()` that runs on every later return path), creates
the protocol instances, registers the XMRMaker as inbound handler, starts
the host, then creates and starts the RPC server (`http.ErrServerClosed`
from `Start` is not an error). -/
def daemon.make (f : Flags) (w : World) : MakeResult :=
  match w.getEnvironmentRes with
  | none => ⟨[.getEnvironment], some .getEnvironmentErr, false, false, false, none, none⟩
  | some (env, cfg0) =>
    if f.devXMRMaker && f.devXMRTaker then
      ⟨[.getEnvironment], some (.flagsMutuallyExclusive flagDevXMRMaker flagDevXMRTaker),
        false, false, false, none, none⟩
    else if f.dataDirSet && f.dataDir == "" then
      ⟨[.getEnvironment], some (.flagValueEmpty flagDataDir), false, false, false, none, none⟩
    else
      if !w.makeDirOk then
        ⟨[.getEnvironment, .makeDataDir], some .makeDirErr, false, false, false, none, none⟩
      else
        if f.libp2pKeySet && f.libp2pKey == "" then
          ⟨[.getEnvironment, .makeDataDir], some (.flagValueEmpty flagLibp2pKey),
            false, false, false, none, none⟩
        else if !w.dialOk then
          ⟨[.getEnvironment, .makeDataDir, .dialEthClient], some .dialErr,
            false, false, false, none, none⟩
        else
          match w.chainID with
          | none =>
            ⟨[.getEnvironment, .makeDataDir, .dialEthClient, .fetchChainID],
              some .chainIDErr, false, false, false, none, none⟩
          | some cid =>
            if !w.newHostOk then
              ⟨[.getEnvironment, .makeDataDir, .dialEthClient, .fetchChainID, .newHost],
                some .newHostErr, false, false, false, none, some cid⟩
            else if !w.newDatabaseOk then
              ⟨[.getEnvironment, .makeDataDir, .dialEthClient, .fetchChainID, .newHost,
                  .openDatabase],
                some .newDatabaseErr, true, false, false, none, some cid⟩
            else
              match (newBackend f (makeCfg f env cfg0) w).2 with
              | .error e =>
                ⟨[.getEnvironment, .makeDataDir, .dialEthClient, .fetchChainID, .newHost,
                    .openDatabase, .newSwapManager] ++ (newBackend f (makeCfg f env cfg0) w).1,
                  some (.backendErr e), true, true, false, none, some cid⟩
              | .ok _b =>
                match (getProtocolInstances f w).2 with
                | .error e =>
                  ⟨[.getEnvironment, .makeDataDir, .dialEthClient, .fetchChainID, .newHost,
                      .openDatabase, .newSwapManager] ++ (newBackend f (makeCfg f env cfg0) w).1 ++
                      (getProtocolInstances f w).1 ++ [.closeBackend],
                    some e, true, true, false, none, some cid⟩
                | .ok pr =>
                  if !w.startHostOk then
                    ⟨[.getEnvironment, .makeDataDir, .dialEthClient, .fetchChainID, .newHost,
                        .openDatabase, .newSwapManager] ++ (newBackend f (makeCfg f env cfg0) w).1 ++
                        (getProtocolInstances f w).1 ++ [.setHandler, .startHost, .closeBackend],
                      some .startHostErr, true, true, false, some pr.2, some cid⟩
                  else if !w.newServerOk then
                    ⟨[.getEnvironment, .makeDataDir, .dialEthClient, .fetchChainID, .newHost,
                        .openDatabase, .newSwapManager] ++ (newBackend f (makeCfg f env cfg0) w).1 ++
                        (getProtocolInstances f w).1 ++
                        [.setHandler, .startHost, .newRPCServer, .closeBackend],
                      some .newServerErr, true, true, false, some pr.2, some cid⟩
                  else if w.startRPCOtherErr then
                    ⟨[.getEnvironment, .makeDataDir, .dialEthClient, .fetchChainID, .newHost,
                        .openDatabase, .newSwapManager] ++ (newBackend f (makeCfg f env cfg0) w).1 ++
                        (getProtocolInstances f w).1 ++
                        [.setHandler, .startHost, .newRPCServer, .startRPC, .closeBackend],
                      some .startRPCErr, true, true, true, some pr.2, some cid⟩
                  else
                    ⟨[.getEnvironment, .makeDataDir, .dialEthClient, .fetchChainID, .newHost,
                        .openDatabase, .newSwapManager] ++ (newBackend f (makeCfg f env cfg0) w).1 ++
                        (getProtocolInstances f w).1 ++
                        [.setHandler, .startHost, .newRPCServer, .startRPC, .closeBackend],
                      none, true, true, true, some pr.2, some cid⟩

/-- From the source: `daemon.stop` closes the database, then stops the
network host, then stops the RPC server, returning at the first error. -/
def daemon.stop (w : World) : List Ev × Option StopErr :=
  if !w.stopDatabaseOk then ([.closeDatabase], some .databaseClose)
  else if !w.stopHostOk then ([.closeDatabase, .stopHost], some .hostStop)
  else if !w.stopRPCOk then ([.closeDatabase, .stopHost, .stopRPC], some .rpcStop)
  else ([.closeDatabase, .stopHost, .stopRPC], none)

/-- The error returned by `runDaemon` itself (its only non-nil return is an
invalid `--log-level` value, from `setLogLevelsFromContext`). -/
inductive RunErr where
  | invalidLogLevel (l : String)
  deriving DecidableEq, Repr

/-- From the source: `setLogLevelsFromContext` accepts exactly the levels
error, warn, info, debug and rejects anything else. -/
def setLogLevelsFromContext (level : String) : Option RunErr :=
  if level == "error" || level == "warn" || level == "info" || level == "debug" then none
  else some (.invalidLogLevel level)

/-- What one run of `runDaemon` produced: the value it returned (`none` is
Go's `nil`), the error `daemon.make` reported (only logged and turned into a
context cancel), the error `daemon.stop` reported (only logged as a
warning), and the combined operation trace. -/
structure RunResult where
  ret : Option RunErr
  makeErr : Option MakeErr
  stopErr : Option StopErr
  trace : List Ev
  deriving DecidableEq, Repr

/-- From the source: `runDaemon` validates the log level, runs
`daemon.make` (in a goroutine whose failure merely logs and cancels the
root context), waits, then runs `daemon.stop` (whose failure merely logs a
warning), and returns nil.  The goroutine plus `d.wait` are modelled as
`make` completing before `stop` runs, which is the order the Go code
observes on every exit. -/
def runDaemon (f : Flags) (w : World) : RunResult :=
  match setLogLevelsFromContext f.logLevel with
  | some e => ⟨some e, none, none, []⟩
  | none =>
    let m := daemon.make f w
    let s := daemon.stop w
    ⟨none, m.err, s.2, m.trace ++ s.1⟩

/-- Modelled from the spec: the spec's startup step 2 requires the fetched
chain id to be validated against the configured environment.  The expected
chain ids: Ethereum mainnet is 1, the stagenet pairing uses an Ethereum
testnet (id 5), and the dev environment a local chain (id 1337). -/
def specChainIDMatchesEnv : Environment → Int → Bool
  | .mainnet, c => c == 1
  | .stagenet, c => c == 5
  | .development, c => c == 1337

end AtomicSwap

namespace xmrtaker

/-- From the source: the name of the deposit wallet created when no wallet
file is configured. -/
def swapDepositWallet : String := "swap-deposit-wallet"

/-- Oracle for the Monero wallet client calls of `getAddress`: whether
`OpenWallet` and `CreateWallet` succeed, what `GetAddress(0)` returns
(`none` is an error) and whether `CloseWallet` succeeds. -/
structure WalletOps where
  openWalletOk : Bool
  createWalletOk : Bool
  getAddressRes : Option String
  closeWalletOk : Bool
  deriving DecidableEq, Repr

/-- The wallet client's single-wallet state: the name of the currently open
wallet, if any.  (Per the spec, at most one wallet is open at a time.)
A failed call leaves the state unchanged; a successful open or create makes
that wallet the open one; a successful close leaves no wallet open. -/
structure WalletState where
  openWallet : Option String
  deriving DecidableEq, Repr

inductive WalletErr where
  | openFailed
  | createOrOpenFailed
  | getAddressFailed
  | closeFailed
  deriving DecidableEq, Repr

/-- From the source: `getAddress` opens the wallet file if one is
configured, otherwise creates (or, failing that, opens) the
swap-deposit-wallet; fetches the account-0 address; closes the wallet; and
returns the address.  Returns the result together with the wallet client's
final state. -/
def getAddress (ops : WalletOps) (st : WalletState) (file password : String) :
    Except WalletErr String × WalletState :=
  let _ := password
  let opened : Except WalletErr WalletState :=
    if file != "" then
      if ops.openWalletOk then .ok ⟨some file⟩ else .error .openFailed
    else
      if ops.createWalletOk then .ok ⟨some swapDepositWallet⟩
      else if ops.openWalletOk then .ok ⟨some swapDepositWallet⟩
      else .error .createOrOpenFailed
  match opened with
  | .error e => (.error e, st)
  | .ok st1 =>
    match ops.getAddressRes with
    | none => (.error .getAddressFailed, st1)
    | some addr =>
      if ops.closeWalletOk then (.ok addr, ⟨none⟩)
      else (.error .closeFailed, st1)

/-- The `xmrtaker.Config` of the source (the backend handle is omitted:
none of its structure is observable here). -/
structure Config where
  basepath : String
  moneroWalletFile : String
  moneroWalletPassword : String
  transferBack : Bool
  deriving DecidableEq, Repr

/-- Abstract ongoing-swap state.  `doRefund` is outside the given sources,
so its outcome (`some` hash on success, `none` on error) and the backend
operations it performs are carried as an oracle inside the state. -/
structure SwapStateM where
  doRefundRes : Option Nat
  refundOps : List Nat
  deriving DecidableEq, Repr

/-- The `xmrtaker.Instance` of the source (backend handle omitted as in
`Config`).  `swapState` is non-none exactly while a swap is ongoing. -/
structure Instance where
  basepath : String
  walletFile : String
  walletPassword : String
  walletAddress : String
  transferBack : Bool
  swapState : Option SwapStateM
  deriving DecidableEq, Repr

/-- From the source: `NewInstance`.  When `cfg.TransferBack` is set it
fetches the deposit-wallet address via `getAddress`; the returned Instance
is built by a composite literal that sets backend, basepath, walletFile,
walletPassword and walletAddress — the `transferBack` field is absent from
the literal, so it takes Go's zero value `false`. -/
def NewInstance (ops : WalletOps) (st : WalletState) (cfg : Config) :
    Except WalletErr (Instance × WalletState) :=
  if cfg.transferBack then
    match getAddress ops st cfg.moneroWalletFile cfg.moneroWalletPassword with
    | (.error e, _st1) => .error e
    | (.ok addr, st1) =>
      .ok (⟨cfg.basepath, cfg.moneroWalletFile, cfg.moneroWalletPassword, addr, false, none⟩, st1)
  else
    .ok (⟨cfg.basepath, cfg.moneroWalletFile, cfg.moneroWalletPassword, "", false, none⟩, st)

inductive RefundErr where
  | noOngoingSwap
  | refundFailed
  deriving DecidableEq, Repr

/-- `errNoOngoingSwap`, defined in the package next to `Refund`. -/
def errNoOngoingSwap : RefundErr := .noOngoingSwap

/-- What `Refund` produced: the transaction hash (0 models the zero
`ethcommon.Hash{}`), the error, the backend operations performed, and the
instance afterwards. -/
structure RefundOut where
  txHash : Nat
  err : Option RefundErr
  backendOps : List Nat
  inst : Instance
  deriving DecidableEq, Repr

/-- From the source: `Refund` returns the zero hash and `errNoOngoingSwap`
when no swap is ongoing; otherwise it delegates to `swapState.doRefund`,
which is outside the given sources and is modelled by the oracle carried in
`SwapStateM`. -/
def Refund (a : Instance) : RefundOut :=
  match a.swapState with
  | none => ⟨0, some errNoOngoingSwap, [], a⟩
  | some s =>
    match s.doRefundRes with
    | some h => ⟨h, none, s.refundOps, a⟩
    | none => ⟨0, some .refundFailed, s.refundOps, a⟩

end xmrtaker

namespace AtomicSwap

/- Concrete fixtures used by witnesses and counterexamples. -/

/-- A development-environment configuration returned by `GetEnvironment`
for `--env=dev` (the dev default config carries no contract address). -/
def cfgDev : Config := ⟨"/data", [], 0, "127.0.0.1", 18081⟩

/-- Flag values of a plain `swapd --deploy` run, every other flag left at
its default. -/
def flagsBase : Flags :=
  ⟨"dev", false, "", false, "", false, 9900, [], "", false, false, true,
    false, "", false, false, "", 0, 0, false, "", false, 18081, false, "",
    "", 0, false, 5005, false, "info"⟩

/-- An oracle on which every external call succeeds; the dev chain reports
chain id 1337. -/
def worldOK : World :=
  ⟨some (.development, cfgDev), true, true, some 1337, true, true, true,
    true, 2748, true, true, true, true, true, true, false, false, true,
    true, true⟩

end AtomicSwap

namespace xmrtaker

/-- A wallet client on which every call succeeds; account 0's address is
`"A"`. -/
def opsGood : WalletOps := ⟨true, true, some "A", true⟩

/-- A wallet client on which opening and creating succeed but
`GetAddress(0)` fails. -/
def opsGetAddrFails : WalletOps := ⟨true, true, none, true⟩

/-- The wallet client's initial state: no wallet open. -/
def stClosed : WalletState := ⟨none⟩

/-- An XMRTaker configuration with the transfer-back option enabled. -/
def cfgTransferBack : Config := ⟨"/base", "wallet", "pw", true⟩

end xmrtaker

namespace AtomicSwap

/-- The Ethereum-signing-key phase of `newBackend` (the steps before the
contract-source decision) passes: the external-signer flag does not clash
with an explicit key file, an explicitly passed key-file value is
non-empty, and (when not using an external signer) loading the key
succeeds. -/
def ethKeyPhasePasses (f : Flags) (w : World) : Bool :=
  !(f.useExternalSigner && f.ethereumPrivKeySet) &&
  !(!f.useExternalSigner && f.ethereumPrivKeySet && f.ethereumPrivKey == "") &&
  (f.useExternalSigner || w.getEthKeyOk)

/-- The Monero-wallet phase of `newBackend` (the steps after the contract is
obtained) passes: no explicitly empty monerod-host or wallet-file flag,
and the wallet client and backend constructors succeed. -/
def moneroPhasePasses (f : Flags) (w : World) : Bool :=
  !(f.moneroDaemonHostSet && f.moneroDaemonHost == "") &&
  !(f.moneroWalletPathSet && f.moneroWalletPath == "") &&
  w.walletClientOk && w.newBackendOk

/-- The 40-hex-digit zero address. -/
def zeroAddr40 : String := "0x0000000000000000000000000000000000000000"

/-- A 40-hex-digit non-zero address (value 1). -/
def oneAddr40 : String := "0x0000000000000000000000000000000000000001"

/-- A default config whose contract address is non-zero (as on environments
that ship a known deployment). -/
def cfgWithAddr : Config := ⟨"/data", [], 7, "127.0.0.1", 18081⟩

/-- The operations of a fully successful `daemon.make`, in order: dial the
Ethereum client and fetch the chain id, create the network host, open the
database, create the swap manager, build the backend (key, contract,
Monero wallet client), create the XMRTaker then XMRMaker instances,
register the handler, start the host, create and start the RPC server, and
finally run the deferred backend close. -/
def mkSuccessTrace (f : Flags) : List Ev :=
  [.getEnvironment, .makeDataDir, .dialEthClient, .fetchChainID, .newHost, .openDatabase,
    .newSwapManager] ++
  (if f.useExternalSigner then [] else [.getEthKey]) ++
  [.getOrDeployFactory, .newWalletClient, .newBackendCall, .newXMRTaker, .newXMRMaker,
    .setHandler, .startHost, .newRPCServer, .startRPC, .closeBackend]

/-- The all-success oracle except that constructing the XMRTaker protocol
instance fails (a failure after the backend exists and before the RPC
server is created). -/
def wNoTaker : World := { worldOK with xmrtakerOk := false }

/-- The all-success oracle except that the chain reports chain id 1
(Ethereum mainnet) although the configured environment is dev. -/
def wChain1 : World := { worldOK with chainID := some 1 }

/-- The all-success oracle except that the `ChainID` call fails. -/
def wNoChain : World := { worldOK with chainID := none }

end AtomicSwap

namespace AtomicSwap

/-- C1 (counterexample): the claim says that on every execution of
`daemon.stop` the RPC server is stopped before the network host and the
network host before the database.  On a run where every close succeeds,
`daemon.stop` in fact closes the database first and stops the RPC server
last, so neither required precedence holds. -/
theorem C1_counterexample :
    (daemon.stop worldOK).2 = none ∧
    ¬ (precedesIdx (daemon.stop worldOK).1 .stopRPC .stopHost ∧
       precedesIdx (daemon.stop worldOK).1 .stopHost .closeDatabase) := by
  decide

/-- C1 (amended): when the daemon shuts down, `daemon.stop` closes the
database first, then stops the network host, then stops the RPC server,
returning at the first failure; it contains no swap-driver cancellation and
no Monero wallet close step. -/
theorem C1_amended_stop_order (w : World) :
    (daemon.stop w).1.head? = some .closeDatabase ∧
    ((daemon.stop w).2 = none →
      (daemon.stop w).1 = [.closeDatabase, .stopHost, .stopRPC]) := by
  unfold daemon.stop
  rcases h1 : w.stopDatabaseOk <;> rcases h2 : w.stopHostOk <;>
    rcases h3 : w.stopRPCOk <;> simp

/-- Witness for C1 (amended) at the all-success oracle. -/
theorem C1_amended_stop_order_witness :
    (daemon.stop worldOK).1.head? = some .closeDatabase ∧
    (daemon.stop worldOK).1 = [.closeDatabase, .stopHost, .stopRPC] :=
  ⟨(C1_amended_stop_order worldOK).1, (C1_amended_stop_order worldOK).2 (by decide)⟩

end AtomicSwap

namespace AtomicSwap

/-- C6 (code bug): with the transfer-back option enabled, `NewInstance`
does obtain the deposit-wallet address, but the composite literal building
the returned `Instance` never assigns the `transferBack` field, so the
instance carries `transferBack = false` even though `cfg.TransferBack` is
true — contradicting the field's own purpose (`transfer xmr back to
original account`) and the config plumbing that exists only to feed it.
This theorem evaluates `NewInstance` at the failing input: the returned
instance holds the fetched wallet address `"A"` but not the transfer-back
setting. -/
theorem C6_transferBack_dropped :
    xmrtaker.cfgTransferBack.transferBack = true ∧
    (xmrtaker.NewInstance xmrtaker.opsGood xmrtaker.stClosed
        xmrtaker.cfgTransferBack).toOption.map
      (fun p => (p.1.walletAddress, p.1.transferBack)) = some ("A", false) := by
  decide

/-- C8 (counterexample): the claim says `getAddress` closes the wallet it
opened before returning on every return path.  On the path where the
configured wallet file `"w"` opens successfully but the `GetAddress(0)`
call fails, `getAddress` returns the error with the wallet `"w"` still
open. -/
theorem C8_counterexample :
    (xmrtaker.getAddress xmrtaker.opsGetAddrFails xmrtaker.stClosed "w" "p").1 =
      .error .getAddressFailed ∧
    (xmrtaker.getAddress xmrtaker.opsGetAddrFails xmrtaker.stClosed "w" "p").2.openWallet =
      some "w" := by
  decide

/-- C8 (amended): `getAddress` closes the wallet it opened or created
before returning the account-0 address on every SUCCESSFUL return path:
whenever it returns an address, the wallet client is left with no wallet
open.  (On the failing paths after a successful open — address fetch or
close failure — the wallet is left open, as the counterexample shows.) -/
theorem C8_amended_close_on_success (ops : xmrtaker.WalletOps)
    (st : xmrtaker.WalletState) (file password addr : String)
    (h : (xmrtaker.getAddress ops st file password).1 = .ok addr) :
    (xmrtaker.getAddress ops st file password).2.openWallet = none := by
  unfold xmrtaker.getAddress at h ⊢
  rcases hf : file != "" <;> rcases ho : ops.openWalletOk <;>
    rcases hc : ops.createWalletOk <;> rcases hg : ops.getAddressRes <;>
    rcases hw : ops.closeWalletOk <;> simp_all

/-- Witness for C8 (amended): on the all-success wallet client,
`getAddress` returns address `"A"` and leaves no wallet open. -/
theorem C8_amended_close_on_success_witness :
    (xmrtaker.getAddress xmrtaker.opsGood xmrtaker.stClosed "w" "p").1 = .ok "A" ∧
    (xmrtaker.getAddress xmrtaker.opsGood xmrtaker.stClosed "w" "p").2.openWallet = none :=
  ⟨by decide,
   C8_amended_close_on_success xmrtaker.opsGood xmrtaker.stClosed "w" "p" "A" (by decide)⟩

/-- C9 (confirmed): calling `Refund` while no swap is ongoing
(`swapState = nil`) returns the zero transaction hash together with
`errNoOngoingSwap`, performs no backend operation, and leaves the instance
unchanged. -/
theorem C9_refund_no_ongoing_swap (a : xmrtaker.Instance)
    (h : a.swapState = none) :
    xmrtaker.Refund a = ⟨0, some xmrtaker.errNoOngoingSwap, [], a⟩ := by
  unfold xmrtaker.Refund
  rw [h]

/-- Witness for C9 at a concrete idle instance. -/
theorem C9_refund_no_ongoing_swap_witness :
    xmrtaker.Refund ⟨"/base", "wallet", "pw", "", false, none⟩ =
      ⟨0, some xmrtaker.errNoOngoingSwap, [],
        ⟨"/base", "wallet", "pw", "", false, none⟩⟩ :=
  C9_refund_no_ongoing_swap ⟨"/base", "wallet", "pw", "", false, none⟩ rfl

end AtomicSwap

namespace AtomicSwap

/-- C7 (confirmed): if both `--dev-xmrmaker` and `--dev-xmrtaker` are
supplied, `daemon.make` rejects the combination before initializing any
component: the only operation performed is the environment lookup (its
trace is exactly `[getEnvironment]`, so no database, network, chain or
wallet component was touched), the construction always fails, and whenever
the environment lookup itself succeeds the reported error is the
mutually-exclusive-flags error for the two dev flags. -/
theorem C7_dev_flags_mutually_exclusive (f : Flags) (w : World)
    (hm : f.devXMRMaker = true) (ht : f.devXMRTaker = true) :
    (daemon.make f w).trace = [.getEnvironment] ∧
    (daemon.make f w).err.isSome = true ∧
    (w.getEnvironmentRes.isSome = true →
      (daemon.make f w).err =
        some (.flagsMutuallyExclusive flagDevXMRMaker flagDevXMRTaker)) := by
  unfold daemon.make
  rcases hg : w.getEnvironmentRes with _ | ⟨env, cfg0⟩ <;> simp [hm, ht]

/-- Witness for C7: both dev flags set on an otherwise default
configuration with the all-success oracle. -/
theorem C7_dev_flags_mutually_exclusive_witness :
    (daemon.make
        { flagsBase with devXMRMaker := true, devXMRTaker := true } worldOK).trace =
      [.getEnvironment] ∧
    (daemon.make
        { flagsBase with devXMRMaker := true, devXMRTaker := true } worldOK).err =
      some (.flagsMutuallyExclusive flagDevXMRMaker flagDevXMRTaker) :=
  ⟨(C7_dev_flags_mutually_exclusive
      { flagsBase with devXMRMaker := true, devXMRTaker := true } worldOK rfl rfl).1,
   (C7_dev_flags_mutually_exclusive
      { flagsBase with devXMRMaker := true, devXMRTaker := true } worldOK rfl rfl).2.2
      (by decide)⟩

/-- C10 (confirmed): whenever the log-level flag is one of error, warn,
info or debug, `runDaemon` returns nil — for every oracle, hence even when
`daemon.make` fails (the error is only logged and cancels the context) and
even when `daemon.stop` fails (the error is only logged as a warning). -/
theorem C10_runDaemon_returns_nil (f : Flags) (w : World)
    (h : f.logLevel = "error" ∨ f.logLevel = "warn" ∨ f.logLevel = "info" ∨
      f.logLevel = "debug") :
    (runDaemon f w).ret = none := by
  unfold runDaemon setLogLevelsFromContext
  rcases h with h | h | h | h <;> rw [h] <;> simp

/-- Witness for C10 on an oracle where both `daemon.make` (Ethereum dial)
and `daemon.stop` (database close) fail: `runDaemon` still returns nil
while recording both component errors. -/
theorem C10_runDaemon_returns_nil_witness :
    (runDaemon flagsBase
        { worldOK with dialOk := false, stopDatabaseOk := false }).ret = none ∧
    (runDaemon flagsBase
        { worldOK with dialOk := false, stopDatabaseOk := false }).makeErr =
      some .dialErr ∧
    (runDaemon flagsBase
        { worldOK with dialOk := false, stopDatabaseOk := false }).stopErr =
      some .databaseClose :=
  ⟨C10_runDaemon_returns_nil flagsBase
      { worldOK with dialOk := false, stopDatabaseOk := false }
      (Or.inr (Or.inr (Or.inl rfl))),
   by decide, by decide⟩

end AtomicSwap

namespace AtomicSwap

/-- C5 (confirmed): backend construction requires exactly one source for
the swap contract.  With the key phase passing: (1) `--deploy` together
with `--contract-address` is rejected as mutually exclusive; (2) `--deploy`
alone deploys a fresh SwapFactory; (3) without `--deploy`, a non-hex
address value is rejected; (4) without `--deploy`, no address value and a
zero configured address fails requiring one of the two flags; (5) a valid
hex address whose value is the zero address likewise fails; (6) a valid
non-zero hex address is validated and used, with no fresh deployment;
(7) with no flag value, a non-zero configured default address is used. -/
theorem C5_backend_contract_source (f : Flags) (cfg : Config) (w : World)
    (hk : ethKeyPhasePasses f w = true) :
    (f.deploy = true → f.contractAddressSet = true →
      (newBackend f cfg w).2 =
        .error (.flagsMutuallyExclusive flagDeploy flagContractAddress)) ∧
    (f.deploy = true → f.contractAddressSet = false → w.getOrDeployOk = true →
      moneroPhasePasses f w = true →
      (newBackend f cfg w).2 = .ok ⟨w.deployedAddress, true⟩) ∧
    (f.deploy = false → f.contractAddress ≠ "" → isHexAddress f.contractAddress = false →
      (newBackend f cfg w).2 = .error (.invalidContractAddress f.contractAddress)) ∧
    (f.deploy = false → f.contractAddress = "" → cfg.contractAddress = 0 →
      (newBackend f cfg w).2 = .error .contractSourceRequired) ∧
    (f.deploy = false → f.contractAddress ≠ "" → isHexAddress f.contractAddress = true →
      hexToAddress f.contractAddress = 0 →
      (newBackend f cfg w).2 = .error .contractSourceRequired) ∧
    (f.deploy = false → f.contractAddress ≠ "" → isHexAddress f.contractAddress = true →
      hexToAddress f.contractAddress ≠ 0 → w.getOrDeployOk = true →
      moneroPhasePasses f w = true →
      (newBackend f cfg w).2 = .ok ⟨hexToAddress f.contractAddress, false⟩) ∧
    (f.deploy = false → f.contractAddress = "" → cfg.contractAddress ≠ 0 →
      w.getOrDeployOk = true → moneroPhasePasses f w = true →
      (newBackend f cfg w).2 = .ok ⟨cfg.contractAddress, false⟩) := by
  simp only [ethKeyPhasePasses, Bool.and_eq_true, Bool.not_eq_true', Bool.and_eq_false_iff,
    Bool.or_eq_true] at hk
  refine ⟨?_, ?_, ?_, ?_, ?_, ?_, ?_⟩ <;> intros <;>
    (unfold newBackend;
      repeat' (first | simp_all [moneroPhasePasses, getOrDeploySwapFactory] | split))

/-- Witness for C5: each of the seven cases at concrete flag values. -/
theorem C5_backend_contract_source_witness :
    (newBackend { flagsBase with contractAddressSet := true } cfgDev worldOK).2 =
      .error (.flagsMutuallyExclusive flagDeploy flagContractAddress) ∧
    (newBackend flagsBase cfgDev worldOK).2 = .ok ⟨worldOK.deployedAddress, true⟩ ∧
    (newBackend { flagsBase with deploy := false, contractAddress := "nothex" }
        cfgDev worldOK).2 = .error (.invalidContractAddress "nothex") ∧
    (newBackend { flagsBase with deploy := false } cfgDev worldOK).2 =
      .error .contractSourceRequired ∧
    (newBackend { flagsBase with deploy := false, contractAddress := zeroAddr40 }
        cfgDev worldOK).2 = .error .contractSourceRequired ∧
    (newBackend { flagsBase with deploy := false, contractAddress := oneAddr40 }
        cfgDev worldOK).2 = .ok ⟨hexToAddress oneAddr40, false⟩ ∧
    (newBackend { flagsBase with deploy := false } cfgWithAddr worldOK).2 =
      .ok ⟨cfgWithAddr.contractAddress, false⟩ :=
  ⟨(C5_backend_contract_source { flagsBase with contractAddressSet := true } cfgDev worldOK
      (by decide)).1 rfl rfl,
   (C5_backend_contract_source flagsBase cfgDev worldOK (by decide)).2.1 rfl rfl rfl (by decide),
   (C5_backend_contract_source { flagsBase with deploy := false, contractAddress := "nothex" }
      cfgDev worldOK (by decide)).2.2.1 rfl (by decide) (by decide),
   (C5_backend_contract_source { flagsBase with deploy := false } cfgDev worldOK
      (by decide)).2.2.2.1 rfl rfl rfl,
   (C5_backend_contract_source { flagsBase with deploy := false, contractAddress := zeroAddr40 }
      cfgDev worldOK (by decide)).2.2.2.2.1 rfl (by decide) (by decide) (by decide),
   (C5_backend_contract_source { flagsBase with deploy := false, contractAddress := oneAddr40 }
      cfgDev worldOK (by decide)).2.2.2.2.2.1 rfl (by decide) (by decide) (by decide) rfl
      (by decide),
   (C5_backend_contract_source { flagsBase with deploy := false } cfgWithAddr worldOK
      (by decide)).2.2.2.2.2.2 rfl rfl (by decide) rfl (by decide)⟩

end AtomicSwap

namespace AtomicSwap

/-- When `newBackend` succeeds its operations are: load the signing key
(unless an external signer is used), get or deploy the factory, create the
wallet client, construct the backend. -/
theorem newBackend_isOk_trace (f : Flags) (cfg : Config) (w : World)
    (h : (newBackend f cfg w).2.isOk = true) :
    (newBackend f cfg w).1 =
      (if f.useExternalSigner then [] else [.getEthKey]) ++
        [.getOrDeployFactory, .newWalletClient, .newBackendCall] := by
  unfold newBackend at h ⊢
  repeat' (first | simp_all [Except.isOk, Except.toBool] | split at h | split)

/-- `getProtocolInstances` succeeds exactly when the wallet-path flag check
passes and both instance constructors succeed, and then it returns the
taker and maker handlers in that order. -/
theorem getProtocolInstances_ok_iff (f : Flags) (w : World) (pr : Role × Role) :
    (getProtocolInstances f w).2 = Except.ok pr ↔
      ((f.moneroWalletPathSet && f.moneroWalletPath == "") = false ∧
        w.xmrtakerOk = true ∧ w.xmrmakerOk = true ∧ pr = (Role.taker, Role.maker)) := by
  unfold getProtocolInstances
  repeat' (first | simp_all | split)
  all_goals exact eq_comm

/-- On success `getProtocolInstances` constructs the XMRTaker and then the
XMRMaker. -/
theorem getProtocolInstances_ok_trace (f : Flags) (w : World)
    (h1 : w.xmrtakerOk = true) (h2 : w.xmrmakerOk = true)
    (h3 : f.moneroWalletPathSet = true → ¬ f.moneroWalletPath = "") :
    (getProtocolInstances f w).1 = [.newXMRTaker, .newXMRMaker] := by
  unfold getProtocolInstances
  rcases hws : f.moneroWalletPathSet <;> simp_all

/-- `newBackend` never starts the RPC server. -/
theorem newBackend_trace_no_startRPC (f : Flags) (cfg : Config) (w : World) :
    Ev.startRPC ∉ (newBackend f cfg w).1 := by
  unfold newBackend
  repeat' (first | simp_all | split)

/-- `newBackend` never constructs a protocol instance. -/
theorem newBackend_trace_no_newXMRTaker (f : Flags) (cfg : Config) (w : World) :
    Ev.newXMRTaker ∉ (newBackend f cfg w).1 := by
  unfold newBackend
  repeat' (first | simp_all | split)

/-- `getProtocolInstances` never starts the RPC server. -/
theorem getProtocolInstances_trace_no_startRPC (f : Flags) (w : World) :
    Ev.startRPC ∉ (getProtocolInstances f w).1 := by
  unfold getProtocolInstances
  repeat' (first | simp_all | split)

/-- C2 (counterexample): the claim says that on a successful startup the
database is opened first and the Ethereum client initialized after it, and
that the Monero wallet client is created before the contract is deployed
or validated.  On the all-success run of `swapd --deploy`, startup
succeeds, yet the database open does not precede the Ethereum dial, and
the wallet-client creation does not precede the contract step. -/
theorem C2_counterexample :
    (daemon.make flagsBase worldOK).err = none ∧
    ¬ precedesIdx (daemon.make flagsBase worldOK).trace .openDatabase .dialEthClient ∧
    ¬ precedesIdx (daemon.make flagsBase worldOK).trace .newWalletClient .getOrDeployFactory := by
  decide

/-- C2 (amended): every successful `daemon.make` performs exactly the
operations of `mkSuccessTrace`, in order: environment and data dir, then
the Ethereum client is dialed and the chain id fetched, then the network
host is created, then the database is opened, then the swap manager and
the backend are constructed (signing key, then contract deployment or
validation, then the Monero wallet client), then the XMRTaker and XMRMaker
protocol instances; the network host is started with the XMRMaker
registered as the inbound swap handler just before, and the RPC server is
created and started last.  In particular the Ethereum client comes before
the database and the contract step before the wallet client, not the other
way around as the original claim states. -/
theorem C2_amended_startup_order (f : Flags) (w : World)
    (h : (daemon.make f w).err = none) :
    (daemon.make f w).trace = mkSuccessTrace f ∧
    (daemon.make f w).registeredHandler = some .maker := by
  unfold daemon.make at h ⊢
  rcases hge : w.getEnvironmentRes with _ | ⟨env, cfg0⟩ <;>
  rcases hdev : f.devXMRMaker && f.devXMRTaker <;>
  rcases hdd : f.dataDirSet && f.dataDir == "" <;>
  rcases hmd : w.makeDirOk <;>
  rcases hlk : f.libp2pKeySet && f.libp2pKey == "" <;>
  rcases hdl : w.dialOk <;>
  rcases hcid : w.chainID with _ | cid <;>
  rcases hnh : w.newHostOk <;>
  rcases hdb : w.newDatabaseOk <;>
  repeat' (first
    | simp_all [mkSuccessTrace, newBackend_isOk_trace, getProtocolInstances_ok_iff,
        getProtocolInstances_ok_trace, Except.isOk, Except.toBool]
    | split at h | split)

/-- Witness for C2 (amended) at the all-success oracle. -/
theorem C2_amended_startup_order_witness :
    (daemon.make flagsBase worldOK).trace = mkSuccessTrace flagsBase ∧
    (daemon.make flagsBase worldOK).registeredHandler = some .maker :=
  C2_amended_startup_order flagsBase worldOK (by decide)

/-- C3 (counterexample): the claim says that on a startup failure the
already-initialized components are torn down without acting on components
that were never initialized.  When XMRTaker construction fails, `make`
fails before the RPC server is ever created, yet the daemon's stop path
still invokes the RPC server stop. -/
theorem C3_counterexample :
    (daemon.make flagsBase wNoTaker).err.isSome = true ∧
    Ev.newRPCServer ∉ (daemon.make flagsBase wNoTaker).trace ∧
    Ev.stopRPC ∈ (runDaemon flagsBase wNoTaker).trace := by
  decide

/-- C3 (amended): if a startup step before the RPC-server start fails,
all later startup steps are skipped (the RPC server is never started), and
a backend that was already constructed is closed by `make`'s deferred
close before returning (whenever the protocol-instance step was reached,
the backend close is in the trace); but the teardown performed afterwards
by `runDaemon` is not limited to initialized components: `daemon.stop`
unconditionally stops the RPC server (once database close and host stop
succeed) even on runs whose startup failed before the RPC server existed. -/
theorem C3_amended_failure_behavior (f : Flags) (w : World) (e : MakeErr)
    (h : (daemon.make f w).err = some e) :
    (e ≠ .startRPCErr → Ev.startRPC ∉ (daemon.make f w).trace) ∧
    (Ev.newXMRTaker ∈ (daemon.make f w).trace →
      Ev.closeBackend ∈ (daemon.make f w).trace) ∧
    (w.stopDatabaseOk = true → w.stopHostOk = true →
      setLogLevelsFromContext f.logLevel = none →
      Ev.stopRPC ∈ (runDaemon f w).trace) := by
  refine ⟨?_, ?_, ?_⟩
  · intro he
    unfold daemon.make at h ⊢
    rcases hge : w.getEnvironmentRes with _ | ⟨env, cfg0⟩ <;>
    rcases hdev : f.devXMRMaker && f.devXMRTaker <;>
    rcases hdd : f.dataDirSet && f.dataDir == "" <;>
    rcases hmd : w.makeDirOk <;>
    rcases hlk : f.libp2pKeySet && f.libp2pKey == "" <;>
    rcases hdl : w.dialOk <;>
    rcases hcid : w.chainID with _ | cid <;>
    rcases hnh : w.newHostOk <;>
    rcases hdb : w.newDatabaseOk <;>
    repeat' (first
      | simp_all [newBackend_trace_no_startRPC, getProtocolInstances_trace_no_startRPC]
      | split at h | split)
  · intro hm
    unfold daemon.make at hm ⊢
    rcases hge : w.getEnvironmentRes with _ | ⟨env, cfg0⟩ <;>
    rcases hdev : f.devXMRMaker && f.devXMRTaker <;>
    rcases hdd : f.dataDirSet && f.dataDir == "" <;>
    rcases hmd : w.makeDirOk <;>
    rcases hlk : f.libp2pKeySet && f.libp2pKey == "" <;>
    rcases hdl : w.dialOk <;>
    rcases hcid : w.chainID with _ | cid <;>
    rcases hnh : w.newHostOk <;>
    rcases hdb : w.newDatabaseOk <;>
    repeat' (first
      | simp_all [newBackend_trace_no_newXMRTaker]
      | split at hm | split)
  · intro h1 h2 h3
    unfold runDaemon daemon.stop
    rcases h4 : w.stopRPCOk <;> simp_all

/-- Witness for C3 (amended) on the run where XMRTaker construction
fails. -/
theorem C3_amended_failure_behavior_witness :
    Ev.startRPC ∉ (daemon.make flagsBase wNoTaker).trace ∧
    Ev.closeBackend ∈ (daemon.make flagsBase wNoTaker).trace ∧
    Ev.stopRPC ∈ (runDaemon flagsBase wNoTaker).trace :=
  ⟨(C3_amended_failure_behavior flagsBase wNoTaker .xmrtakerErr (by decide)).1 (by decide),
   (C3_amended_failure_behavior flagsBase wNoTaker .xmrtakerErr (by decide)).2.1 (by decide),
   (C3_amended_failure_behavior flagsBase wNoTaker .xmrtakerErr (by decide)).2.2 rfl rfl
     (by decide)⟩

end AtomicSwap

namespace AtomicSwap

/-- C4 (counterexample): the claim says startup fails when the fetched
chain id does not match the configured environment.  With the environment
resolved to dev (whose chain id is 1337) and the Ethereum client reporting
chain id 1, the fetched id matches no dev environment, yet `daemon.make`
succeeds, records the mismatched id in the network config, and behaves
exactly as in the matching run: no validation happens. -/
theorem C4_counterexample :
    specChainIDMatchesEnv .development 1 = false ∧
    (daemon.make flagsBase wChain1).err = none ∧
    (daemon.make flagsBase wChain1).netChainID = some 1 ∧
    (daemon.make flagsBase wChain1).trace = (daemon.make flagsBase worldOK).trace ∧
    (daemon.make flagsBase wChain1).err = (daemon.make flagsBase worldOK).err := by
  decide

/-- C4 (amended): after initializing the Ethereum client the daemon does
fetch the chain id — in every trace that contains the fetch, the client
dial strictly precedes it — and a failing fetch aborts startup; but the
fetched value is only stored into the network config, never validated
against the environment (the counterexample shows a mismatched id
succeeding unchanged). -/
theorem C4_amended_chainid_fetch (f : Flags) (w : World) :
    (w.chainID = none → (daemon.make f w).err.isSome = true) ∧
    (Ev.fetchChainID ∈ (daemon.make f w).trace →
      precedesIdx (daemon.make f w).trace .dialEthClient .fetchChainID) := by
  constructor
  · intro hc
    unfold daemon.make
    rcases hge : w.getEnvironmentRes with _ | ⟨env, cfg0⟩ <;>
    rcases hdev : f.devXMRMaker && f.devXMRTaker <;>
    rcases hdd : f.dataDirSet && f.dataDir == "" <;>
    rcases hmd : w.makeDirOk <;>
    rcases hlk : f.libp2pKeySet && f.libp2pKey == "" <;>
    rcases hdl : w.dialOk <;>
    repeat' (first | simp_all | split)
  · intro hm
    unfold daemon.make at hm ⊢
    rcases hge : w.getEnvironmentRes with _ | ⟨env, cfg0⟩ <;>
    rcases hdev : f.devXMRMaker && f.devXMRTaker <;>
    rcases hdd : f.dataDirSet && f.dataDir == "" <;>
    rcases hmd : w.makeDirOk <;>
    rcases hlk : f.libp2pKeySet && f.libp2pKey == "" <;>
    rcases hdl : w.dialOk <;>
    rcases hcid : w.chainID with _ | cid <;>
    rcases hnh : w.newHostOk <;>
    rcases hdb : w.newDatabaseOk <;>
    repeat' (first | simp_all [precedesIdx, idxOf] | split at hm | split)

/-- Witness for C4 (amended) on the oracle whose `ChainID` call fails:
startup indeed fails, and in its trace the dial precedes the fetch. -/
theorem C4_amended_chainid_fetch_witness :
    (daemon.make flagsBase wNoChain).err.isSome = true ∧
    precedesIdx (daemon.make flagsBase wNoChain).trace .dialEthClient .fetchChainID :=
  ⟨(C4_amended_chainid_fetch flagsBase wNoChain).1 rfl,
   (C4_amended_chainid_fetch flagsBase wNoChain).2 (by decide)⟩

end AtomicSwap
